import Mathlib

/-!
Verification of the business-card scanner pipeline (src/App.tsx).

The app keeps five independent React state variables; we embed them as one
record. Interpretation results are JS objects mapping field names to arrays
of strings; we embed them as association lists `List (String × List String)`
(JS object keys are unique and `Object.keys` enumerates them in insertion
order). The two asynchronous handlers `pickAndRecognize` and
`captureAndRecognize` are embedded as functions from the pre-trigger state
and the outcomes of their suspension points (picker / takePhoto /
interpretImage, all external collaborators) to a `FlowRun` record holding
the observable state at each suspension point, the locator handed to the
interpretation client, and the final state.
-/

/-- The field-name → value-sequence mapping of an interpretation result
(`result?.data` in the source). -/
abbrev CardMap := List (String × List String)

/-- The five `useState` variables of `App` (src/App.tsx lines 26-35). -/
structure AppState where
  processedText : String
  hasPermissions : Bool
  isProcessingText : Bool
  cardIsFound : Bool
  contactInfo : CardMap
deriving DecidableEq, Repr

/-- The initial values of the five `useState` hooks. -/
def initialState : AppState :=
  { processedText := "Scan a Card to see\nContact info here"
    hasPermissions := false
    isProcessingText := false
    cardIsFound := false
    contactInfo := [] }

/-- `validateCard` (src/App.tsx lines 37-47): `Object.keys(result)` is the
key list; a non-zero `keys?.length` is truthy, so the then-branch stores the
mapping and sets `cardIsFound`; otherwise the message is set and
`cardIsFound` cleared. -/
def validateCard (result : CardMap) (s : AppState) : AppState :=
  if (result.map Prod.fst).length ≠ 0 then
    { s with contactInfo := result, cardIsFound := true }
  else
    { s with processedText := "No valid Business Card found, please try again!!",
             cardIsFound := false }

/-- Outcome of the external picker call `ImagePicker.openPicker` in
`pickAndRecognize`: resolve with an image (carrying its path) or reject
(cancellation or failure), which lands in `.catch`. -/
inductive PickOutcome where
  | picked (path : String)
  | cancelled
deriving DecidableEq, Repr

/-- Outcome of `await camera.current?.takePhoto(...)` in
`captureAndRecognize`: resolve with `image` (which is `undefined`, i.e.
`none`, when the camera ref is unset thanks to optional chaining), or
throw into the `catch` block. -/
inductive CaptureOutcome where
  | shot (img : Option String)
  | threw
deriving DecidableEq, Repr

/-- Outcome of `await interpretImage(...)`: resolve with a possibly absent
data payload (`result?.data` is `none` when the result or its `data` field
is undefined), or reject into the enclosing catch. -/
inductive InterpOutcome where
  | ok (data : Option CardMap)
  | failed
deriving DecidableEq, Repr

/-- Trace of one run of an acquisition handler: the state observable while
the acquisition call (picker or takePhoto) is pending, the state observable
while `interpretImage` is pending (`none` when it is never reached), the
`path` field of the argument handed to `interpretImage` (outer `none` when
the client is never invoked; inner `none` when the field is `undefined`),
and the state after the handler has finished. -/
structure FlowRun where
  duringAcquisition : AppState
  duringInterpret : Option AppState
  interpPathArg : Option (Option String)
  final : AppState
deriving DecidableEq, Repr

/-- `pickAndRecognize` (src/App.tsx lines 49-63). The handler calls
`openPicker` directly; `setIsProcessingText(true)` runs only inside the
`.then` callback, after the picker has resolved. A rejection of the picker
or of the async `.then` body lands in `.catch`, which only clears the busy
flag. On interpretation success the busy flag is cleared and
`validateCard(result?.data ?? {})` runs. -/
def pickAndRecognize (s : AppState) (pick : PickOutcome) (interp : InterpOutcome) :
    FlowRun :=
  match pick with
  | .cancelled =>
      { duringAcquisition := s
        duringInterpret := none
        interpPathArg := none
        final := { s with isProcessingText := false } }
  | .picked path =>
      let s1 : AppState := { s with isProcessingText := true }
      match interp with
      | .failed =>
          { duringAcquisition := s
            duringInterpret := some s1
            interpPathArg := some (some path)
            final := { s1 with isProcessingText := false } }
      | .ok data =>
          { duringAcquisition := s
            duringInterpret := some s1
            interpPathArg := some (some path)
            final := validateCard (data.getD []) { s1 with isProcessingText := false } }

/-- The locator computation of `captureAndRecognize` (src/App.tsx lines
74-75): `Platform.OS === 'ios' ? image?.path : ` followed by the template
literal that glues `file://` onto `image?.path`. When `image` is undefined
the iOS branch yields `undefined` and the template literal stringifies
`undefined` into the text `undefined`. -/
def imagePathOf (isIOS : Bool) (img : Option String) : Option String :=
  if isIOS then img
  else some ("file://" ++ img.getD "undefined")

/-- `captureAndRecognize` (src/App.tsx lines 65-86): sets the busy flag
before awaiting `takePhoto`; computes the platform-keyed locator; always
proceeds to `interpretImage({...image, path: imagePath})`; any throw lands
in `catch`, which only clears the busy flag. -/
def captureAndRecognize (s : AppState) (isIOS : Bool) (cap : CaptureOutcome)
    (interp : InterpOutcome) : FlowRun :=
  let s1 : AppState := { s with isProcessingText := true }
  match cap with
  | .threw =>
      { duringAcquisition := s1
        duringInterpret := none
        interpPathArg := none
        final := { s1 with isProcessingText := false } }
  | .shot img =>
      match interp with
      | .failed =>
          { duringAcquisition := s1
            duringInterpret := some s1
            interpPathArg := some (imagePathOf isIOS img)
            final := { s1 with isProcessingText := false } }
      | .ok data =>
          { duringAcquisition := s1
            duringInterpret := some s1
            interpPathArg := some (imagePathOf isIOS img)
            final := validateCard (data.getD []) { s1 with isProcessingText := false } }

/-- `true` when the state observable during the interpretation call (if the
call happens at all) has the busy flag set. -/
def processingWhileInterpreting (r : FlowRun) : Bool :=
  match r.duringInterpret with
  | some st => st.isProcessingText
  | none => true

/-- The permission statuses of the host capability (spec section 6 boundary
contract; the source compares the library result against the string
`denied` only). -/
inductive PermissionStatus where
  | granted
  | denied
  | restricted
  | notDetermined
deriving DecidableEq, Repr

/-- The permission gate of the mount effect (src/App.tsx lines 88-113):
`setHasPermissions(false)` exactly when
`cameraPermission === 'denied' || microPhonePermission === 'denied'`,
and `setHasPermissions(true)` otherwise. -/
def hasPermissionsFlag (cam mic : PermissionStatus) : Bool :=
  if cam = PermissionStatus.denied ∨ mic = PermissionStatus.denied then false
  else true

/-- What the camera area of the screen renders. -/
inductive CameraSection where
  | captureView
  | messageText (t : String)
deriving DecidableEq, Repr

/-- The camera-area conditional (src/App.tsx lines 122-140):
`device && hasPermissions ?` the capture view `:` the text
`No Camera Found`. `device` is `devices.back`, truthy exactly when a rear
device is enumerated. -/
def renderCameraSection (deviceBack hasPerm : Bool) : CameraSection :=
  if deviceBack && hasPerm then CameraSection.captureView
  else CameraSection.messageText "No Camera Found"

/-- What the result area of the screen renders. -/
inductive ResultSection where
  | busyIndicator
  | fieldList (rows : List (String × List String))
  | messageText (t : String)
deriving DecidableEq, Repr

/-- One contact row (src/App.tsx lines 152-163): the key text `{key}:`,
then the mapped value texts when `contactInfo[key]?.length` is truthy, else
the single text `Undefined`. -/
def renderContactRow (key : String) (values : List String) : String × List String :=
  (key ++ ":", if values.isEmpty then ["Undefined"] else values)

/-- The result-area ternary (src/App.tsx lines 141-168):
`isProcessingText ?` busy indicator `: cardIsFound ?` the field list mapped
over `Object.keys(contactInfo)` `:` the text `{processedText}`. -/
def renderResultSection (s : AppState) : ResultSection :=
  if s.isProcessingText then ResultSection.busyIndicator
  else if s.cardIsFound then
    ResultSection.fieldList (s.contactInfo.map fun kv => renderContactRow kv.1 kv.2)
  else ResultSection.messageText s.processedText

/-- C1 counterexample: for the pick-from-gallery trigger from the initial
state, the state observed after the trigger and before the asynchronous
picker call resolves still has the busy flag off — it is not `Processing`,
refuting the claim that every acquisition trigger enters `Processing`
before its asynchronous acquisition work. -/
theorem C1_counterexample :
    (pickAndRecognize initialState (PickOutcome.picked "p")
        (InterpOutcome.ok none)).duringAcquisition.isProcessingText = false := by
  rfl

/-- C1 (amended): the pick-from-gallery trigger leaves the pre-trigger
state unchanged while the picker is pending and enters `Processing` only
after the picker resolves, before the interpretation call; the live-capture
trigger enters `Processing` immediately, before `takePhoto` begins; in both
flows the state observed while the interpretation call is pending is
`Processing`. -/
theorem C1_processing_ordering (s : AppState) (pk : PickOutcome)
    (cap : CaptureOutcome) (i j : InterpOutcome) (isIOS : Bool) :
    (pickAndRecognize s pk i).duringAcquisition = s ∧
    processingWhileInterpreting (pickAndRecognize s pk i) = true ∧
    (captureAndRecognize s isIOS cap j).duringAcquisition.isProcessingText = true ∧
    processingWhileInterpreting (captureAndRecognize s isIOS cap j) = true := by
  refine ⟨?_, ?_, ?_, ?_⟩ <;>
    cases pk <;> cases cap <;> cases i <;> cases j <;>
      simp [pickAndRecognize, captureAndRecognize, processingWhileInterpreting]

/-- C2 counterexample: visual capture `restricted` with audio capture
`granted` yields a usable flag of `true` although the two statuses are not
both `granted`, refuting the claimed equivalence. -/
theorem C2_counterexample :
    hasPermissionsFlag PermissionStatus.restricted PermissionStatus.granted = true ∧
    ¬(PermissionStatus.restricted = PermissionStatus.granted ∧
      PermissionStatus.granted = PermissionStatus.granted) := by
  constructor
  · rfl
  · decide

/-- C2 (amended): the derived capture-usable flag is false if and only if
at least one of the two statuses is `denied`; `restricted` and
`not-determined` combinations leave the flag true. -/
theorem C2_flag_iff_not_denied (cam mic : PermissionStatus) :
    (hasPermissionsFlag cam mic = false ↔
      (cam = PermissionStatus.denied ∨ mic = PermissionStatus.denied)) ∧
    hasPermissionsFlag PermissionStatus.restricted PermissionStatus.granted = true ∧
    hasPermissionsFlag PermissionStatus.notDetermined PermissionStatus.granted = true := by
  cases cam <;> cases mic <;> simp [hasPermissionsFlag]

/-- C3 counterexample: the rendering for no-rear-device with permissions
granted is the text `No Camera Found`, and it is the very same rendering
produced when a rear device exists but permissions are denied — the two
situations are not rendered distinctly, refuting the second half of the
claim. -/
theorem C3_counterexample :
    renderCameraSection false true = CameraSection.messageText "No Camera Found" ∧
    renderCameraSection false true = renderCameraSection true false := by
  exact ⟨rfl, rfl⟩

/-- C3 (amended): whenever no rear capture device is enumerated — whatever
the permission flag — the renderer shows the `No Camera Found` text in
place of the capture view, and the permission-denied case renders that same
identical text, not a distinct rendering. -/
theorem C3_no_camera_text (perm dev : Bool) :
    renderCameraSection false perm = CameraSection.messageText "No Camera Found" ∧
    renderCameraSection dev false = CameraSection.messageText "No Camera Found" := by
  cases perm <;> cases dev <;> exact ⟨rfl, rfl⟩

/-- C4: `validateCard` classifies Found exactly when the mapping has at
least one key; on a non-empty mapping it stores the mapping unmodified
(value sequences included) and changes nothing else besides the found flag;
on the empty mapping it sets the exact fixed message and clears the found
flag. -/
theorem C4_validateCard_found_iff (m : CardMap) (s : AppState) (k : String)
    (vs : List String) :
    ((validateCard m s).cardIsFound = true ↔ m.map Prod.fst ≠ []) ∧
    validateCard ((k, vs) :: m) s =
      { s with contactInfo := (k, vs) :: m, cardIsFound := true } ∧
    validateCard [] s =
      { s with processedText := "No valid Business Card found, please try again!!",
               cardIsFound := false } := by
  refine ⟨?_, ?_, ?_⟩
  · cases m <;> simp [validateCard]
  · simp [validateCard]
  · simp [validateCard]

/-- C5: every failure at a suspension point — picker rejection,
interpretation rejection after a successful pick, `takePhoto` throw, or
interpretation rejection after a capture — leaves a final state equal to
the pre-trigger state with only the busy flag cleared: the machine is never
stuck in `Processing`, the message text and found flag are untouched, so an
interpretation failure never produces the `NotFound` state. -/
theorem C5_failure_clears_busy_only (s : AppState) (i j : InterpOutcome)
    (isIOS : Bool) (p : String) (img : Option String) :
    (pickAndRecognize s PickOutcome.cancelled i).final =
      { s with isProcessingText := false } ∧
    (pickAndRecognize s (PickOutcome.picked p) InterpOutcome.failed).final =
      { s with isProcessingText := false } ∧
    (captureAndRecognize s isIOS CaptureOutcome.threw j).final =
      { s with isProcessingText := false } ∧
    (captureAndRecognize s isIOS (CaptureOutcome.shot img) InterpOutcome.failed).final =
      { s with isProcessingText := false } := by
  cases i <;> cases j <;>
    exact ⟨rfl, rfl, rfl, rfl⟩

/-- C6: a successful interpretation whose data payload is absent is handled
exactly like the empty mapping in both flows, and the final state is the
NotFound presentation — found flag cleared, the fixed message set, busy
flag off — with no null or undefined value stored in state. -/
theorem C6_absent_payload_is_notfound (s : AppState) (p : String)
    (isIOS : Bool) (img : Option String) :
    (pickAndRecognize s (PickOutcome.picked p) (InterpOutcome.ok none)).final =
      (pickAndRecognize s (PickOutcome.picked p) (InterpOutcome.ok (some []))).final ∧
    (captureAndRecognize s isIOS (CaptureOutcome.shot img) (InterpOutcome.ok none)).final =
      (captureAndRecognize s isIOS (CaptureOutcome.shot img)
        (InterpOutcome.ok (some []))).final ∧
    (pickAndRecognize s (PickOutcome.picked p) (InterpOutcome.ok none)).final =
      { s with isProcessingText := false, cardIsFound := false,
               processedText := "No valid Business Card found, please try again!!" } ∧
    (captureAndRecognize s isIOS (CaptureOutcome.shot img) (InterpOutcome.ok none)).final =
      { s with isProcessingText := false, cardIsFound := false,
               processedText := "No valid Business Card found, please try again!!" } := by
  refine ⟨rfl, rfl, ?_, ?_⟩ <;>
    simp [pickAndRecognize, captureAndRecognize, validateCard]

/-- C7: the locator handed to the interpretation client is keyed on the
host family alone: on the non-iOS family the raw path is prefixed with the
`file://` local-file scheme, on iOS it is passed unmodified, and the
prefixed form is never equal to the raw path — so exactly one of the two
host families modifies the locator. -/
theorem C7_locator_host_keyed (p : String) :
    imagePathOf true (some p) = some p ∧
    imagePathOf false (some p) = some ("file://" ++ p) ∧
    imagePathOf false (some p) ≠ some p := by
  refine ⟨rfl, rfl, ?_⟩
  intro h
  simp [imagePathOf] at h
  have hlen := congrArg String.length h
  rw [String.length_append] at hlen
  have h7 : "file://".length = 7 := rfl
  omega

/-- C8: the result area renders exactly one of the busy indicator (when
the busy flag is set), the contact field list (busy off, found on), or the
message text (busy off, found off); and each contact row renders its key
followed by a colon together with its ordered value sequence, or the single
literal `Undefined` when the sequence is empty. -/
theorem C8_render_exclusive (s : AppState) (k v : String) (vs : List String) :
    (renderResultSection s = ResultSection.busyIndicator ↔
      s.isProcessingText = true) ∧
    (renderResultSection s =
        ResultSection.fieldList (s.contactInfo.map fun kv => renderContactRow kv.1 kv.2) ↔
      (s.isProcessingText = false ∧ s.cardIsFound = true)) ∧
    (renderResultSection s = ResultSection.messageText s.processedText ↔
      (s.isProcessingText = false ∧ s.cardIsFound = false)) ∧
    renderContactRow k [] = (k ++ ":", ["Undefined"]) ∧
    renderContactRow k (v :: vs) = (k ++ ":", v :: vs) := by
  obtain ⟨pt, hp, busy, found, ci⟩ := s
  cases busy <;> cases found <;>
    simp [renderResultSection, renderContactRow]

/-- C9: when live capture is triggered with the camera reference unset
(`takePhoto` yields no image), the pipeline does not stop early: the
interpretation client is still invoked, with a `path` of `undefined` on
iOS and the literal string `file://undefined` on the other host family —
not the non-empty dereferenceable locator the CapturedImage contract
requires. -/
theorem C9_undefined_locator_still_sent (s : AppState) (i : InterpOutcome) :
    (captureAndRecognize s true (CaptureOutcome.shot none) i).interpPathArg =
      some none ∧
    (captureAndRecognize s false (CaptureOutcome.shot none) i).interpPathArg =
      some (some "file://undefined") := by
  cases i <;> exact ⟨rfl, rfl⟩

/-- C10: a NotFound classification rewrites only the message text and the
found flag, leaving the previously stored contact-info mapping (and every
other field) in place; symmetrically a Found classification rewrites only
the stored mapping and the found flag, leaving the message text unchanged. -/
theorem C10_validateCard_frame (s : AppState) (k : String) (vs : List String)
    (m : CardMap) :
    validateCard [] s =
      { s with processedText := "No valid Business Card found, please try again!!",
               cardIsFound := false } ∧
    (validateCard [] s).contactInfo = s.contactInfo ∧
    validateCard ((k, vs) :: m) s =
      { s with contactInfo := (k, vs) :: m, cardIsFound := true } ∧
    (validateCard ((k, vs) :: m) s).processedText = s.processedText := by
  refine ⟨?_, ?_, ?_, ?_⟩ <;> simp [validateCard]
